import Mathlib

/-! Shallow embedding of storages/backends/sftpstorage.py (classes SFTPStorage
and SFTPStorageFile) together with proofs about the behaviour of its
operations.  External collaborators (paramiko, the remote filesystem, the
operating system) are modelled as explicit environments and states; every
definition mirrors the control flow of the cited source lines. -/

/-- Python exception classes that appear in the backend's control flow. -/
inductive PyErr where
  | authError        -- paramiko.AuthenticationException
  | ioError          -- IOError (raised e.g. by sftp.stat for a missing path)
  | attributeError   -- AttributeError
  | socketError      -- a network-level error raised inside SSHClient.connect
  | sshError         -- paramiko.SSHException (e.g. "No existing session")
  | valueError       -- ValueError
  | recursionError   -- Python RecursionError (unbounded recursion)
  deriving DecidableEq

/-- Keyword parameters passed to SSHClient.connect.  The backend inspects only
whether username and password are present; every other entry is forwarded
opaquely, so only these two fields are modelled. -/
structure Params where
  username : Option String
  password : Option String
  deriving DecidableEq

/-- An opened SFTP channel (a paramiko SFTPClient), abstracted to an id. -/
structure Session where
  id : Nat
  deriving DecidableEq

/-- State of one SFTPStorage instance that the connection code reads and
mutates: the params dict and the cached `_sftp` attribute (absent = none). -/
structure ConnState where
  params : Params
  _sftp : Option Session
  deriving DecidableEq

/-- Environment giving the outcome of the external calls made during one
connection attempt: load_host_keys on a given file (some e = raised e),
SSHClient.connect for given params (some e = raised e, none = connected),
getpass.getuser() and getpass.getpass() results, and open_sftp given whether
the transport was actually established by a successful connect. -/
structure ConnEnv where
  loadHostKeys : String → Option PyErr
  connect : Params → Option PyErr
  getuser : String
  getpass : String
  openSftp : Bool → Except PyErr Session

/-- Result of running _connect (or the sftp property): the post state of the
instance, the exceptions printed by the generic except branch, and the
exception that propagated to the caller, if any. -/
structure ConnOut where
  st : ConnState
  printed : List PyErr
  err : Option PyErr
  deriving DecidableEq

/-- Path of the known-hosts file loaded at sftpstorage.py lines 112-116: the
configured file when set, otherwise the user default location (the result of
os.path.expanduser is kept symbolic as the unexpanded path). -/
def knownHostsPath (known_host_file : Option String) : String :=
  match known_host_file with
  | some f => f
  | none => "~/.ssh/known_hosts"

/-- Tail of _connect, lines 137-138: if the instance has no _sftp attribute
yet, open the SFTP channel on the (possibly never connected) client and cache
it; an exception from open_sftp propagates. -/
def openSftpStep (env : ConnEnv) (st : ConnState) (printed : List PyErr)
    (transportOk : Bool) : ConnOut :=
  match st._sftp with
  | some _ => ⟨st, printed, none⟩
  | none =>
    match env.openSftp transportOk with
    | Except.ok s => ⟨{ st with _sftp := some s }, printed, none⟩
    | Except.error e => ⟨st, printed, some e⟩

/-- SFTPStorage._connect, lines 109-138, with a fuel bound on the interactive
retry recursion (the real recursion depth is at most two, because the retry
stores a password into params and a second authentication failure then takes
the raising branch).  The branches mirror the source exactly: a host-key load
failure propagates (no handler around lines 112-116); an authentication
failure either triggers the interactive retry (lines 124-131) or re-raises
(line 133); any other exception from connect is printed and swallowed
(lines 134-135), after which control falls through to open_sftp. -/
def connectGo (env : ConnEnv) (interactive : Bool)
    (known_host_file : Option String) : Nat → ConnState → ConnOut
  | 0, st => ⟨st, [], some PyErr.recursionError⟩
  | fuel + 1, st =>
    match env.loadHostKeys (knownHostsPath known_host_file) with
    | some e => ⟨st, [], some e⟩
    | none =>
      match env.connect st.params with
      | none => openSftpStep env st [] true
      | some PyErr.authError =>
        if interactive && st.params.password.isNone then
          let uname := match st.params.username with
            | some u => some u
            | none => some env.getuser
          let st' : ConnState :=
            { st with params := { username := uname, password := some env.getpass } }
          let o := connectGo env interactive known_host_file fuel st'
          match o.err with
          | some _ => o
          | none => openSftpStep env o.st o.printed false
        else ⟨st, [], some PyErr.authError⟩
      | some e => openSftpStep env st [e] false

/-- Result of reading the sftp property: the returned session (none when an
exception propagated instead), the post state, printed output and the
propagated exception. -/
structure SftpOut where
  session : Option Session
  st : ConnState
  printed : List PyErr
  err : Option PyErr
  deriving DecidableEq

/-- SFTPStorage.sftp, lines 140-145: return the cached channel, running
_connect first when the `_sftp` attribute is absent; reading `self._sftp`
afterwards raises AttributeError if _connect did not set it. -/
def sftpProp (env : ConnEnv) (interactive : Bool) (known_host_file : Option String)
    (fuel : Nat) (st : ConnState) : SftpOut :=
  match st._sftp with
  | some s => ⟨some s, st, [], none⟩
  | none =>
    let o := connectGo env interactive known_host_file fuel st
    match o.err with
    | some e => ⟨none, o.st, o.printed, some e⟩
    | none =>
      match o.st._sftp with
      | some s => ⟨some s, o.st, o.printed, none⟩
      | none => ⟨none, o.st, o.printed, some PyErr.attributeError⟩

/-- Remote filesystem state visible through the SFTP channel.  Absolute posix
paths are represented by their component lists (the root "/" is []), so that
posixpath.dirname corresponds to List.dropLast; sftpstorage.py works with
posix paths only (line 88). -/
structure FS where
  dirs : List (List String)
  files : List (List String × List Nat)
  deriving DecidableEq

/-- Outcome of sftp.stat used by SFTPStorage.exists: a path is visible iff it
is a directory or a file of the remote filesystem. -/
def fsExists (fs : FS) (p : List String) : Bool :=
  decide (p ∈ fs.dirs ∨ p ∈ fs.files.map Prod.fst)

/-- Remote operations issued over the SFTP channel, recorded as a trace. -/
inductive SFTPOp where
  | mkdir (p : List String)
  | chmod (p : List String) (mode : Nat)
  | chown (p : List String) (uid gid : Int)
  | writeFile (p : List String) (data : List Nat)
  deriving DecidableEq

/-- Configuration fields of SFTPStorage used by _mkdir/_save/_chown
(lines 78-81).  uid and gid are Python ints or None. -/
structure SFTPConfig where
  dir_mode : Option Nat
  file_mode : Option Nat
  uid : Option Int
  gid : Option Int
  deriving DecidableEq

/-- Python truthiness of an int-or-None value, as used by the guard
`if self.uid or self.gid` at lines 182 and 200. -/
def pyTruthy : Option Int → Bool
  | none => false
  | some n => n != 0

/-- Python `x or d` for an int-or-None x: d when x is None or 0, else x.
Used at lines 167-168 (`uid = uid or attr.st_uid`). -/
def pyOrInt : Option Int → Int → Int
  | none, d => d
  | some v, d => if v = 0 then d else v

/-- Argument computation of SFTPStorage._chown, lines 161-169: the stat
lookup (whose result is the pair stUid, stGid) happens only when uid or gid
is None; otherwise both given values are passed to sftp.chown verbatim. -/
def chownArgs (stUid stGid : Int) : Option Int → Option Int → Int × Int
  | some u, some g => (u, g)
  | u, g => (pyOrInt u stUid, pyOrInt g stGid)

/-- Ownership step shared by _mkdir (lines 182-183) and _save (lines 200-201):
call _chown only when uid or gid is truthy.  attrs gives the st_uid/st_gid
pair that sftp.stat would report for a path. -/
def ownershipOps (cfg : SFTPConfig) (attrs : List String → Int × Int)
    (p : List String) : List SFTPOp :=
  if pyTruthy cfg.uid || pyTruthy cfg.gid then
    let args := chownArgs (attrs p).1 (attrs p).2 cfg.uid cfg.gid
    [SFTPOp.chown p args.1 args.2]
  else []

/-- Directory-mode step of _mkdir, lines 179-180. -/
def dirModeOps (cfg : SFTPConfig) (p : List String) : List SFTPOp :=
  match cfg.dir_mode with
  | some m => [SFTPOp.chmod p m]
  | none => []

/-- File-mode step of _save, lines 198-199. -/
def fileModeOps (cfg : SFTPConfig) (p : List String) : List SFTPOp :=
  match cfg.file_mode with
  | some m => [SFTPOp.chmod p m]
  | none => []

/-- Operations issued for one directory created by _mkdir, lines 177-183:
sftp.mkdir, then chmod when dir_mode is configured, then the ownership step. -/
def mkdirBlock (cfg : SFTPConfig) (attrs : List String → Int × Int)
    (p : List String) : List SFTPOp :=
  SFTPOp.mkdir p :: (dirModeOps cfg p ++ ownershipOps cfg attrs p)

/-- SFTPStorage._mkdir, lines 171-183, with fuel for the structural recursion
on the parent chain (posixpath.dirname = dropLast; exists applied to an
absolute path resolves to that same path, since posixpath.join discards the
root when the second argument is absolute).  Returns the filesystem after the
created directories plus the trace of issued operations; none models the
non-terminating run that the source would perform if no ancestor existed. -/
def mkdirGo (cfg : SFTPConfig) (attrs : List String → Int × Int) :
    Nat → FS → List String → Option (FS × List SFTPOp)
  | 0, _, _ => none
  | fuel + 1, fs, path =>
    let parent := path.dropLast
    let step :=
      if fsExists fs parent then some (fs, ([] : List SFTPOp))
      else mkdirGo cfg attrs fuel fs parent
    match step with
    | none => none
    | some (fs1, ops1) =>
      some ({ fs1 with dirs := path :: fs1.dirs },
            ops1 ++ mkdirBlock cfg attrs path)

/-- Content argument of _save: either a Django File wrapping bytes (what the
public save path supplies) or a raw bytes object (what SFTPStorageFile.close
supplies at line 285). -/
inductive PyContent where
  | fileObj (data : List Nat)
  | bytes (data : List Nat)
  deriving DecidableEq

/-- Python attribute call `content.open()` at line 187: defined on a File
object, AttributeError on a bytes object. -/
def contentOpen : PyContent → Except PyErr PyContent
  | PyContent.fileObj d => Except.ok (PyContent.fileObj d)
  | PyContent.bytes _ => Except.error PyErr.attributeError

/-- Python attribute access and call `content.file.read()` at line 194. -/
def contentRead : PyContent → Except PyErr (List Nat)
  | PyContent.fileObj d => Except.ok d
  | PyContent.bytes _ => Except.error PyErr.attributeError

/-- SFTPStorage._save, lines 185-202: open the content source, resolve the
path under the root, create missing parent directories, write the whole
content, then apply file mode and ownership; returns the logical name. -/
def saveModel (cfg : SFTPConfig) (attrs : List String → Int × Int) (fs : FS)
    (root : List String) (name : List String) (content : PyContent) :
    Except PyErr (FS × List SFTPOp × List String) :=
  match contentOpen content with
  | Except.error e => Except.error e
  | Except.ok c =>
    let path := root ++ name
    let dirname := path.dropLast
    let made :=
      if fsExists fs dirname then some (fs, ([] : List SFTPOp))
      else mkdirGo cfg attrs (dirname.length + 1) fs dirname
    match made with
    | none => Except.error PyErr.recursionError
    | some (fs1, ops1) =>
      match contentRead c with
      | Except.error e => Except.error e
      | Except.ok data =>
        let fs2 : FS :=
          { fs1 with files := (path, data) :: fs1.files.filter (fun e => !(e.1 == path)) }
        Except.ok (fs2,
          ops1 ++ [SFTPOp.writeFile path data] ++ fileModeOps cfg path
               ++ ownershipOps cfg attrs path,
          name)

/-- Outcome of sftp.stat at line 212: success exactly when the path exists,
IOError otherwise (the not-found condition). -/
def statRemote (fs : FS) (p : List String) : Except PyErr Unit :=
  if fsExists fs p then Except.ok () else Except.error PyErr.ioError

/-- The try/except of SFTPStorage.exists, lines 211-215: a stat success gives
True, a raised IOError is caught and gives False, any other exception
propagates. -/
def existsFromStat : Except PyErr Unit → Except PyErr Bool
  | Except.ok _ => Except.ok true
  | Except.error PyErr.ioError => Except.ok false
  | Except.error e => Except.error e

/-- SFTPStorage.exists, lines 208-215, against the remote filesystem model. -/
def existsModel (fs : FS) (root name : List String) : Except PyErr Bool :=
  existsFromStat (statRemote fs (root ++ name))

/-- One entry of sftp.listdir_attr: a filename and its st_mode (None when the
server sent no mode information). -/
structure SFTPAttr where
  filename : String
  st_mode : Option Nat
  deriving DecidableEq

/-- stat.S_IFMT: the file-type bits of a mode word. -/
def S_IFMT (m : Nat) : Nat := m &&& 61440

/-- stat.S_IFDIR (0o040000). -/
def S_IFDIR : Nat := 16384

/-- SFTPStorage._isdir_attr, lines 217-222. -/
def isdirAttr (item : SFTPAttr) : Bool :=
  match item.st_mode with
  | some m => S_IFMT m == S_IFDIR
  | none => false

/-- Loop body of SFTPStorage.listdir, lines 226-231: append each entry's
filename to the dirs accumulator when its mode marks a directory, else to the
files accumulator. -/
def listdirLoop : List SFTPAttr → List String × List String → List String × List String
  | [], acc => acc
  | item :: rest, (dirs, files) =>
    if isdirAttr item then listdirLoop rest (dirs ++ [item.filename], files)
    else listdirLoop rest (dirs, files ++ [item.filename])

/-- SFTPStorage.listdir, lines 224-232, applied to the raw remote listing. -/
def listdirModel (items : List SFTPAttr) : List String × List String :=
  listdirLoop items ([], [])

/-- State of one SFTPStorageFile handle, lines 254-261: logical name, open
mode string, dirty flag, the in-memory buffer contents, and the flag that the
remote content has been pulled. -/
structure FileHandle where
  _name : List String
  _mode : String
  _is_dirty : Bool
  buf : List Nat
  _is_read : Bool
  deriving DecidableEq

/-- SFTPStorageFile.__init__, lines 255-261: both flags start false and the
buffer starts empty. -/
def fileHandleInit (name : List String) (mode : String) : FileHandle :=
  { _name := name, _mode := mode, _is_dirty := false, buf := [], _is_read := false }

/-- SFTPStorageFile.write, lines 276-281: AttributeError when the mode has no
letter w, otherwise replace the buffer wholesale and set both flags. -/
def fileHandleWrite (st : FileHandle) (content : List Nat) :
    Except PyErr FileHandle :=
  if st._mode.toList.contains 'w' then
    Except.ok { st with buf := content, _is_dirty := true, _is_read := true }
  else Except.error PyErr.attributeError

/-- SFTPStorageFile.close, lines 283-286: when dirty, pass the raw buffer
bytes (self.file.getvalue(), a bytes object) to the storage's _save; when not
dirty, only the local buffer is closed and no remote call happens. -/
def fileHandleClose (cfg : SFTPConfig) (attrs : List String → Int × Int)
    (fs : FS) (root : List String) (st : FileHandle) :
    Except PyErr (FS × List SFTPOp) :=
  if st._is_dirty then
    match saveModel cfg attrs fs root st._name (PyContent.bytes st.buf) with
    | Except.error e => Except.error e
    | Except.ok (fs1, ops, _) => Except.ok (fs1, ops)
  else Except.ok (fs, [])

/-- Model of Python urljoin restricted to the shape used by the backend: an
absolute base URL joined with a relative logical name, which resolves to the
base up to and including its last slash followed by the name. -/
def urljoinModel (base url : String) : String :=
  String.mk ((base.toList.reverse.dropWhile (fun c => c != '/')).reverse ++ url.toList)

/-- The .replace of line 251: every backslash becomes a forward slash (a
one-character replace is a character-wise map). -/
def replaceBackslashes (s : String) : String :=
  String.mk (s.toList.map (fun c => if c = '\\' then '/' else c))

/-- SFTPStorage.url, lines 248-251: ValueError when no base URL is
configured, otherwise urljoin followed by backslash normalization. -/
def urlModel (base_url : Option String) (name : String) : Except PyErr String :=
  match base_url with
  | none => Except.error PyErr.valueError
  | some b => Except.ok (replaceBackslashes (urljoinModel b name))

/-- Folds the mkdir operations of a trace into the filesystem's directory set
(used to express that every mkdir is issued only when the directory's parent
already exists at that point of the trace). -/
def applyMkdirs (fs : FS) : List SFTPOp → FS
  | [] => fs
  | SFTPOp.mkdir p :: rest => applyMkdirs { fs with dirs := p :: fs.dirs } rest
  | _ :: rest => applyMkdirs fs rest

/-- Scan of a trace checking that each mkdir is issued for a directory whose
parent exists at that moment (counting the directories made earlier in the
same trace). -/
def opsParentsOk (fs : FS) : List SFTPOp → Bool
  | [] => true
  | SFTPOp.mkdir p :: rest =>
    fsExists fs p.dropLast && opsParentsOk { fs with dirs := p :: fs.dirs } rest
  | _ :: rest => opsParentsOk fs rest

/-- Environment of a connection attempt that fails below authentication: the
host-key load succeeds, SSHClient.connect raises a network-level error for
any params, and open_sftp succeeds only on an established transport, raising
paramiko's "No existing session" SSHException otherwise. -/
def envNetFail : ConnEnv :=
  { loadHostKeys := fun _ => none
  , connect := fun _ => some PyErr.socketError
  , getuser := "user"
  , getpass := "secret"
  , openSftp := fun ok => if ok then Except.ok ⟨1⟩ else Except.error PyErr.sshError }

/-- C1 failing run: under envNetFail the generic except branch of _connect
(lines 134-135) catches the socket error and only prints it; execution then
continues to open_sftp on the never-connected client, so the caller receives
the unrelated "No existing session" error instead of the original
connection-level error — the original error is printed and swallowed, not
propagated, contradicting the claim that it always surfaces to the caller. -/
theorem sftp_connect_generic_error_swallowed :
    connectGo envNetFail false none 2 ⟨⟨none, none⟩, none⟩ =
      ⟨⟨⟨none, none⟩, none⟩, [PyErr.socketError], some PyErr.sshError⟩ := rfl

/-- Environment whose known-hosts load fails while authentication would
succeed and the channel would open. -/
def envLoadFail : ConnEnv :=
  { loadHostKeys := fun _ => some PyErr.ioError
  , connect := fun _ => none
  , getuser := "user"
  , getpass := "secret"
  , openSftp := fun ok => if ok then Except.ok ⟨1⟩ else Except.error PyErr.sshError }

/-- C3 counterexample: with a failing known-hosts load but a connect that
would succeed, _connect propagates the load error and never reaches the
authentication step — no session is obtained and nothing is printed, refuting
that the connect operation continues past a failed host-key load. -/
theorem sftp_hostkey_load_failure_counterexample :
    connectGo envLoadFail false (some "/etc/kh") 2 ⟨⟨none, none⟩, none⟩ =
      ⟨⟨⟨none, none⟩, none⟩, [], some PyErr.ioError⟩ := rfl

/-- C3 amended: a failure to load the known-hosts file (configured or
default) is fatal: whenever load_host_keys raises, _connect propagates
exactly that error with the instance state untouched and nothing printed, so
authentication is never attempted and no session is cached. -/
theorem sftp_hostkey_load_failure_fatal (env : ConnEnv) (interactive : Bool)
    (khf : Option String) (fuel : Nat) (st : ConnState) (e : PyErr)
    (h : env.loadHostKeys (knownHostsPath khf) = some e) :
    connectGo env interactive khf (fuel + 1) st = ⟨st, [], some e⟩ := by
  unfold connectGo
  rw [h]

/-- Witness for sftp_hostkey_load_failure_fatal at a concrete environment. -/
theorem sftp_hostkey_load_failure_fatal_witness :
    envLoadFail.loadHostKeys (knownHostsPath none) = some PyErr.ioError ∧
    connectGo envLoadFail true none 2 ⟨⟨none, none⟩, none⟩ =
      ⟨⟨⟨none, none⟩, none⟩, [], some PyErr.ioError⟩ :=
  ⟨rfl, sftp_hostkey_load_failure_fatal envLoadFail true none 1 ⟨⟨none, none⟩, none⟩
    PyErr.ioError rfl⟩

/-- Helper: the fatal authentication branch of _connect (line 133): with a
successful host-key load, an AuthenticationException from connect, and the
interactive retry not applicable, _connect re-raises with state untouched. -/
theorem connectGo_auth_fatal (env : ConnEnv) (interactive : Bool)
    (khf : Option String) (fuel : Nat) (st : ConnState)
    (hload : env.loadHostKeys (knownHostsPath khf) = none)
    (hconn : env.connect st.params = some PyErr.authError)
    (hno : interactive = false ∨ st.params.password.isSome = true) :
    connectGo env interactive khf (fuel + 1) st = ⟨st, [], some PyErr.authError⟩ := by
  unfold connectGo
  rw [hload, hconn]
  have hcond : (interactive && st.params.password.isNone) = false := by
    rcases hno with h | h
    · simp [h]
    · simp [Option.isNone, Option.isSome] at h ⊢
      cases hp : st.params.password with
      | none => rw [hp] at h; cases h
      | some v => simp
  rw [hcond]
  simp

/-- C4: when connect raises an authentication failure and the interactive
fallback does not apply (interactive disabled, or a password already present
in params), _connect re-raises the AuthenticationException with the instance
state untouched, so no session is cached; reading the sftp property on that
state therefore attempts the connection again and surfaces the same error
rather than returning a half-initialized cached session. -/
theorem sftp_auth_failure_fatal_no_cache (env : ConnEnv) (khf : Option String)
    (interactive : Bool) (st : ConnState)
    (hload : env.loadHostKeys (knownHostsPath khf) = none)
    (hconn : env.connect st.params = some PyErr.authError)
    (hno : interactive = false ∨ st.params.password.isSome = true)
    (hs : st._sftp = none) :
    connectGo env interactive khf 2 st = ⟨st, [], some PyErr.authError⟩ ∧
    (sftpProp env interactive khf 2 st).err = some PyErr.authError ∧
    (sftpProp env interactive khf 2 st).session = none ∧
    (sftpProp env interactive khf 2 st).st._sftp = none := by
  have h1 : connectGo env interactive khf 2 st = ⟨st, [], some PyErr.authError⟩ :=
    connectGo_auth_fatal env interactive khf 1 st hload hconn hno
  refine ⟨h1, ?_, ?_, ?_⟩ <;> simp [sftpProp, hs, h1]

/-- Environment where every connect attempt fails authentication. -/
def envAuthFail : ConnEnv :=
  { loadHostKeys := fun _ => none
  , connect := fun _ => some PyErr.authError
  , getuser := "user"
  , getpass := "secret"
  , openSftp := fun ok => if ok then Except.ok ⟨1⟩ else Except.error PyErr.sshError }

/-- Witness for sftp_auth_failure_fatal_no_cache at a concrete environment
with the interactive fallback disabled. -/
theorem sftp_auth_failure_fatal_no_cache_witness :
    envAuthFail.loadHostKeys (knownHostsPath none) = none ∧
    envAuthFail.connect { username := none, password := none } = some PyErr.authError ∧
    connectGo envAuthFail false none 2 ⟨⟨none, none⟩, none⟩ =
      ⟨⟨⟨none, none⟩, none⟩, [], some PyErr.authError⟩ ∧
    (sftpProp envAuthFail false none 2 ⟨⟨none, none⟩, none⟩).err = some PyErr.authError :=
  ⟨rfl, rfl,
    (sftp_auth_failure_fatal_no_cache envAuthFail none false ⟨⟨none, none⟩, none⟩
      rfl rfl (Or.inl rfl) rfl).1,
    (sftp_auth_failure_fatal_no_cache envAuthFail none false ⟨⟨none, none⟩, none⟩
      rfl rfl (Or.inl rfl) rfl).2.1⟩

/-- C5: SFTPStorage.exists returns a boolean: a stat success yields true, a
not-found IOError from stat is caught and yields false (never re-raised), so
exists reports exactly whether the resolved path is present remotely. -/
theorem sftp_exists_bool (fs : FS) (root name : List String) :
    existsModel fs root name = Except.ok (fsExists fs (root ++ name)) ∧
    existsFromStat (Except.ok ()) = Except.ok true ∧
    existsFromStat (Except.error PyErr.ioError) = Except.ok false := by
  refine ⟨?_, rfl, rfl⟩
  unfold existsModel statRemote
  cases h : fsExists fs (root ++ name) <;> simp [h, existsFromStat]

/-- C8: a File Handle opened in read mode on which neither read nor write is
ever called has its dirty flag false from construction on, and closing it
performs no save: the remote filesystem is returned unchanged and no remote
operation is issued by the open/close pair. -/
theorem sftp_readonly_handle_close_no_write (cfg : SFTPConfig)
    (attrs : List String → Int × Int) (fs : FS) (root name : List String) :
    (fileHandleInit name "rb")._is_dirty = false ∧
    fileHandleClose cfg attrs fs root (fileHandleInit name "rb") =
      Except.ok (fs, []) := by
  exact ⟨rfl, rfl⟩

/-- C2 failing run: a handle opened for writing, written once, then closed.
SFTPStorageFile.close passes the raw buffer bytes (self.file.getvalue(), a
bytes object) to _save at line 285, and _save's first step content.open() at
line 187 is an attribute access that does not exist on a bytes object, so the
flush crashes with AttributeError and nothing is stored: the claimed
dirty-flush/round-trip contract does not hold on this code. -/
theorem sftp_dirty_close_save_crashes :
    fileHandleWrite (fileHandleInit ["a.txt"] "wb") [104, 105] =
      Except.ok { _name := ["a.txt"], _mode := "wb", _is_dirty := true,
                  buf := [104, 105], _is_read := true } ∧
    fileHandleClose ⟨none, none, none, none⟩ (fun _ => (0, 0))
        ⟨[[]], []⟩ ["root"]
        { _name := ["a.txt"], _mode := "wb", _is_dirty := true,
          buf := [104, 105], _is_read := true } =
      Except.error PyErr.attributeError := ⟨rfl, rfl⟩

/-- Helper: mapping backslashes to slashes leaves no backslash in a list. -/
theorem mapBackslash_contains (l : List Char) :
    (l.map (fun c => if c = '\\' then '/' else c)).contains '\\' = false := by
  induction l with
  | nil => rfl
  | cons c cs ih =>
    rw [List.map_cons, List.contains_cons, ih, Bool.or_false]
    by_cases h : c = '\\'
    · subst h; decide
    · rw [if_neg h]
      exact beq_eq_false_iff_ne.mpr (Ne.symm h)

/-- Helper: the character-wise backslash replacement leaves no backslash. -/
theorem replaceBackslashes_no_backslash (s : String) :
    (replaceBackslashes s).toList.contains '\\' = false :=
  mapBackslash_contains s.toList

/-- C9: url raises ValueError when no base URL is configured; otherwise it
returns the base URL joined with the logical name with every backslash
normalized to a forward slash (the result contains no backslash), and on the
spec's concrete example it yields the expected absolute URL. -/
theorem sftp_url_join_normalize :
    (∀ name, urlModel none name = Except.error PyErr.valueError) ∧
    (∀ b name, urlModel (some b) name =
      Except.ok (replaceBackslashes (urljoinModel b name))) ∧
    (∀ b name, ((replaceBackslashes (urljoinModel b name)).toList.contains '\\') = false) ∧
    urlModel (some "https://static.example.com/media/") "a/b.txt" =
      Except.ok "https://static.example.com/media/a/b.txt" := by
  refine ⟨fun _ => rfl, fun _ _ => rfl, fun b name => ?_, ?_⟩
  · exact replaceBackslashes_no_backslash (urljoinModel b name)
  · rfl

/-- C10 counterexample: with configured uid 0 and gid 5 the guard
`if self.uid or self.gid` passes (gid is truthy), _chown receives both values
non-None, so no stat lookup replaces the zero, and sftp.chown is invoked with
uid 0 — the current owner (here 1000) is not consulted, refuting both that an
explicitly passed uid of 0 is always replaced by the path's current owner and
that owner 0 is unreachable from the configuration surface. -/
theorem sftp_chown_zero_uid_counterexample :
    ownershipOps ⟨none, none, some 0, some 5⟩ (fun _ => (1000, 1000)) ["r", "d"] =
      [SFTPOp.chown ["r", "d"] 0 5] := rfl

/-- C10 amended: a configured uid or gid of 0 or None is falsy, and when both
are falsy, save and directory creation skip the ownership step entirely;
inside _chown the stat-based replacement of a 0-or-None value happens only
when at least one of the two arguments is None — when both are integers they
are passed to chown verbatim, so a configured uid of 0 together with a
nonzero gid does set owner 0. -/
theorem sftp_chown_zero_semantics (cfg : SFTPConfig)
    (attrs : List String → Int × Int) (p : List String) (stU stG u g : Int) :
    pyTruthy none = false ∧ pyTruthy (some 0) = false ∧
    ownershipOps { cfg with uid := some 0, gid := some 0 } attrs p = [] ∧
    ownershipOps { cfg with uid := none, gid := some 0 } attrs p = [] ∧
    ownershipOps { cfg with uid := some 0, gid := none } attrs p = [] ∧
    ownershipOps { cfg with uid := none, gid := none } attrs p = [] ∧
    chownArgs stU stG (some u) (some g) = (u, g) ∧
    chownArgs stU stG (some u) none = (if u = 0 then stU else u, stG) ∧
    chownArgs stU stG none (some g) = (stU, if g = 0 then stG else g) := by
  refine ⟨rfl, rfl, rfl, rfl, rfl, rfl, rfl, ?_, ?_⟩
  · simp [chownArgs, pyOrInt]
  · simp [chownArgs, pyOrInt]

/-- Helper: accumulator characterization of the listdir loop — each traversed
entry's filename is appended to the dirs accumulator when its mode marks a
directory, else to the files accumulator, so the loop computes the two
filtered, order-preserving projections of the listing. -/
theorem listdirLoop_eq (items : List SFTPAttr) (d f : List String) :
    listdirLoop items (d, f) =
      (d ++ (items.filter isdirAttr).map SFTPAttr.filename,
       f ++ (items.filter (fun i => ! isdirAttr i)).map SFTPAttr.filename) := by
  induction items generalizing d f with
  | nil => simp [listdirLoop]
  | cons item rest ih =>
    by_cases h : isdirAttr item <;>
      simp [listdirLoop, h, ih]

/-- C7: listdir splits the remote listing into subdirectory names and file
names by the entry's mode bits: each list is the order-preserving projection
of the corresponding filtered sublist of the original listing (no merging or
re-sorting), every entry lands in exactly one of the two lists, and when the
remote filenames are distinct the two lists share no name. -/
theorem sftp_listdir_partition (items : List SFTPAttr)
    (hnodup : (items.map SFTPAttr.filename).Nodup) :
    (listdirModel items).1 = (items.filter isdirAttr).map SFTPAttr.filename ∧
    (listdirModel items).2 =
      (items.filter (fun i => ! isdirAttr i)).map SFTPAttr.filename ∧
    (∀ i ∈ items,
      (isdirAttr i = true ∧ i.filename ∈ (listdirModel items).1) ∨
      (isdirAttr i = false ∧ i.filename ∈ (listdirModel items).2)) ∧
    (∀ n, n ∈ (listdirModel items).1 → n ∈ (listdirModel items).2 → False) := by
  have hloop := listdirLoop_eq items [] []
  have h1 : (listdirModel items).1 = (items.filter isdirAttr).map SFTPAttr.filename := by
    unfold listdirModel; rw [hloop]; simp
  have h2 : (listdirModel items).2 =
      (items.filter (fun i => ! isdirAttr i)).map SFTPAttr.filename := by
    unfold listdirModel; rw [hloop]; simp
  refine ⟨h1, h2, ?_, ?_⟩
  · intro i hi
    by_cases h : isdirAttr i
    · exact Or.inl ⟨h, by rw [h1]; exact List.mem_map_of_mem _ (List.mem_filter.mpr ⟨hi, h⟩)⟩
    · refine Or.inr ⟨by simpa using h, ?_⟩
      rw [h2]
      exact List.mem_map_of_mem _ (List.mem_filter.mpr ⟨hi, by simpa using h⟩)
  · intro n hn1 hn2
    rw [h1] at hn1
    rw [h2] at hn2
    obtain ⟨a, ha, hfa⟩ := List.mem_map.mp hn1
    obtain ⟨b, hb, hfb⟩ := List.mem_map.mp hn2
    obtain ⟨hamem, hadir⟩ := List.mem_filter.mp ha
    obtain ⟨hbmem, hbdir⟩ := List.mem_filter.mp hb
    have hab : a = b :=
      List.inj_on_of_nodup_map hnodup hamem hbmem (hfa.trans hfb.symm)
    rw [hab] at hadir
    simp [hadir] at hbdir

/-- Helper: membership of the element reported by getLast?. -/
theorem mem_of_getLast?_eq {α : Type} {l : List α} {a : α}
    (h : l.getLast? = some a) : a ∈ l := by
  obtain ⟨hne, heq⟩ := List.mem_getLast?_eq_getLast (l := l) (x := a) h
  rw [heq]
  exact List.getLast_mem hne

/-- Helper: a path is reported as existing once it is in the directory set. -/
theorem fsExists_true_iff (fs : FS) (p : List String) :
    fsExists fs p = true ↔ (p ∈ fs.dirs ∨ p ∈ fs.files.map Prod.fst) := by
  unfold fsExists
  exact decide_eq_true_iff

/-- Helper: folding a trace split in two parts. -/
theorem applyMkdirs_append (fs : FS) (xs ys : List SFTPOp) :
    applyMkdirs fs (xs ++ ys) = applyMkdirs (applyMkdirs fs xs) ys := by
  induction xs generalizing fs with
  | nil => rfl
  | cons op rest ih => cases op <;> simp [applyMkdirs, ih]

/-- Helper: the trace block of one created directory adds exactly that
directory to the directory set. -/
theorem applyMkdirs_block (cfg : SFTPConfig) (attrs : List String → Int × Int)
    (fs : FS) (p : List String) :
    applyMkdirs fs (mkdirBlock cfg attrs p) = { fs with dirs := p :: fs.dirs } := by
  unfold mkdirBlock dirModeOps ownershipOps
  cases cfg.dir_mode <;>
    by_cases h : (pyTruthy cfg.uid || pyTruthy cfg.gid) = true <;>
      simp [applyMkdirs, h]

/-- Helper: the trace of a whole chain of created directories adds exactly
the chain (in reverse creation order, mirroring list prepending). -/
theorem applyMkdirs_flatMap_block (cfg : SFTPConfig)
    (attrs : List String → Int × Int) (chain : List (List String)) (fs : FS) :
    applyMkdirs fs (chain.flatMap (mkdirBlock cfg attrs)) =
      { fs with dirs := chain.reverse ++ fs.dirs } := by
  induction chain generalizing fs with
  | nil => simp [applyMkdirs]
  | cons p rest ih =>
    rw [List.flatMap_cons, applyMkdirs_append, applyMkdirs_block, ih]
    simp

/-- Helper: the parent-check scan over a split trace. -/
theorem opsParentsOk_append (fs : FS) (xs ys : List SFTPOp) :
    opsParentsOk fs (xs ++ ys) =
      (opsParentsOk fs xs && opsParentsOk (applyMkdirs fs xs) ys) := by
  induction xs generalizing fs with
  | nil => simp [opsParentsOk, applyMkdirs]
  | cons op rest ih =>
    cases op <;> simp [opsParentsOk, applyMkdirs, ih, Bool.and_assoc]

/-- Helper: the parent-check of one directory's block reduces to the
existence of its parent when the block is issued. -/
theorem opsParentsOk_block (cfg : SFTPConfig) (attrs : List String → Int × Int)
    (fs : FS) (p : List String) :
    opsParentsOk fs (mkdirBlock cfg attrs p) = fsExists fs p.dropLast := by
  unfold mkdirBlock dirModeOps ownershipOps
  cases cfg.dir_mode <;>
    by_cases h : (pyTruthy cfg.uid || pyTruthy cfg.gid) = true <;>
      simp [opsParentsOk, h]

/-- Main induction for _mkdir: starting from a filesystem whose root exists
and a target path that does not, the recursion succeeds with enough fuel and
creates exactly one chain of directories: the chain ends at the target,
starts at a directory whose parent already existed, consists only of
directories missing at the start, steps down one path component at a time,
and its trace never issues a mkdir before that directory's parent exists. -/
theorem mkdirGo_spec (cfg : SFTPConfig) (attrs : List String → Int × Int) :
    ∀ fuel path fs, path.length < fuel → fsExists fs [] = true →
      fsExists fs path = false →
      ∃ chain : List (List String),
        mkdirGo cfg attrs fuel fs path =
          some (⟨chain.reverse ++ fs.dirs, fs.files⟩,
                chain.flatMap (mkdirBlock cfg attrs)) ∧
        chain.getLast? = some path ∧
        (∃ q, chain.head? = some q ∧ fsExists fs q.dropLast = true) ∧
        (∀ p ∈ chain, fsExists fs p = false) ∧
        List.Chain' (fun a b => a = b.dropLast) chain ∧
        opsParentsOk fs (chain.flatMap (mkdirBlock cfg attrs)) = true := by
  intro fuel
  induction fuel with
  | zero => intro path fs hlen _ _; exact absurd hlen (Nat.not_lt_zero _)
  | succ fuel ih =>
    intro path fs hlen hroot hpath
    by_cases hpar : fsExists fs path.dropLast = true
    · refine ⟨[path], ?_, rfl, ⟨path, rfl, hpar⟩, ?_, List.chain'_singleton _, ?_⟩
      · unfold mkdirGo
        simp [hpar]
      · intro p hp
        rw [List.mem_singleton] at hp
        rw [hp]
        exact hpath
      · simp only [List.flatMap_cons, List.flatMap_nil, List.append_nil]
        rw [opsParentsOk_block]
        exact hpar
    · have hpar' : fsExists fs path.dropLast = false := by
        cases h : fsExists fs path.dropLast
        · rfl
        · exact absurd h hpar
      have hne : path ≠ [] := by
        intro h0
        rw [h0] at hpar'
        simp only [List.dropLast_nil] at hpar'
        rw [hroot] at hpar'
        cases hpar'
      have hlen' : path.dropLast.length < fuel := by
        have h1 := List.length_dropLast path
        have h2 : 0 < path.length := List.length_pos.mpr hne
        omega
      obtain ⟨chain1, heq1, hlast1, ⟨q, hq, hqex⟩, hmem1, hchain1, hok1⟩ :=
        ih path.dropLast fs hlen' hroot hpar'
      have hne1 : chain1 ≠ [] := by
        intro h0
        rw [h0] at hlast1
        cases hlast1
      refine ⟨chain1 ++ [path], ?_, List.getLast?_concat .., ?_, ?_, ?_, ?_⟩
      · unfold mkdirGo
        simp only [hpar', Bool.false_eq_true, if_false, heq1, List.flatMap_append,
          List.flatMap_cons, List.flatMap_nil, List.append_nil, List.reverse_append,
          List.reverse_cons, List.reverse_nil, List.nil_append, List.cons_append,
          List.append_assoc]
      · refine ⟨q, ?_, hqex⟩
        rw [List.head?_append_of_ne_nil chain1 hne1]
        exact hq
      · intro p hp
        rcases List.mem_append.mp hp with h | h
        · exact hmem1 p h
        · rw [List.mem_singleton] at h
          rw [h]
          exact hpath
      · refine List.chain'_append.mpr ⟨hchain1, List.chain'_singleton _, ?_⟩
        intro x hx y hy
        rw [hlast1] at hx
        have hx' : path.dropLast = x := by simpa using hx
        have hy' : path = y := by simpa using hy
        rw [← hx', ← hy']
      · rw [List.flatMap_append, opsParentsOk_append, applyMkdirs_flatMap_block, hok1]
        simp only [List.flatMap_cons, List.flatMap_nil, List.append_nil,
          opsParentsOk_block, Bool.true_and]
        rw [fsExists_true_iff]
        refine Or.inl (List.mem_append.mpr (Or.inl ?_))
        rw [List.mem_reverse]
        exact mem_of_getLast?_eq hlast1

/-- C6: when the resolved target directory is missing, the recursive
directory-creation step (invoked by _save at lines 190-191) creates every
missing ancestor from the deepest existing one downward: the created chain
ends at the target, begins directly under an already existing directory and
steps down one path component at a time; the trace never issues a mkdir for a
directory whose parent does not yet exist at that moment, never issues a
mkdir for a directory that already existed (so pre-existing ancestors cause
no error), and each newly created directory receives the configured directory
mode and, when a truthy uid or gid is configured, the ownership step. -/
theorem sftp_mkdir_creates_missing_ancestors (cfg : SFTPConfig)
    (attrs : List String → Int × Int) (fs : FS) (path : List String) (fuel : Nat)
    (hlen : path.length < fuel) (hroot : fsExists fs [] = true)
    (hpath : fsExists fs path = false) :
    ∃ chain : List (List String),
      mkdirGo cfg attrs fuel fs path =
        some (⟨chain.reverse ++ fs.dirs, fs.files⟩,
              chain.flatMap (mkdirBlock cfg attrs)) ∧
      chain.getLast? = some path ∧
      (∃ q, chain.head? = some q ∧ fsExists fs q.dropLast = true) ∧
      (∀ p ∈ chain, fsExists fs p = false) ∧
      List.Chain' (fun a b => a = b.dropLast) chain ∧
      opsParentsOk fs (chain.flatMap (mkdirBlock cfg attrs)) = true ∧
      (∀ p ∈ chain, ∀ m, cfg.dir_mode = some m →
        SFTPOp.chmod p m ∈ chain.flatMap (mkdirBlock cfg attrs)) ∧
      ((pyTruthy cfg.uid || pyTruthy cfg.gid) = true →
        ∀ p ∈ chain, ∃ u g,
          SFTPOp.chown p u g ∈ chain.flatMap (mkdirBlock cfg attrs)) := by
  obtain ⟨chain, h1, h2, h3, h4, h5, h6⟩ :=
    mkdirGo_spec cfg attrs fuel path fs hlen hroot hpath
  refine ⟨chain, h1, h2, h3, h4, h5, h6, ?_, ?_⟩
  · intro p hp m hm
    refine List.mem_flatMap.mpr ⟨p, hp, ?_⟩
    unfold mkdirBlock dirModeOps
    rw [hm]
    simp
  · intro hguard p hp
    refine ⟨(chownArgs (attrs p).1 (attrs p).2 cfg.uid cfg.gid).1,
            (chownArgs (attrs p).1 (attrs p).2 cfg.uid cfg.gid).2, ?_⟩
    refine List.mem_flatMap.mpr ⟨p, hp, ?_⟩
    unfold mkdirBlock ownershipOps
    rw [hguard]
    simp

/-- Witness for sftp_mkdir_creates_missing_ancestors: a root-only remote
filesystem and the target /a/b with fuel 3. -/
theorem sftp_mkdir_creates_missing_ancestors_witness :
    ((["a", "b"] : List String).length < 3 ∧
     fsExists ⟨[[]], []⟩ [] = true ∧
     fsExists ⟨[[]], []⟩ ["a", "b"] = false) ∧
    ∃ chain : List (List String),
      mkdirGo ⟨some 493, some 420, some 1000, some 1000⟩ (fun _ => (7, 9)) 3
          ⟨[[]], []⟩ ["a", "b"] =
        some (⟨chain.reverse ++ [[]], []⟩,
              chain.flatMap
                (mkdirBlock ⟨some 493, some 420, some 1000, some 1000⟩
                  (fun _ => (7, 9)))) ∧
      chain.getLast? = some ["a", "b"] :=
  ⟨⟨by decide, by decide, by decide⟩, by
    obtain ⟨chain, h1, h2, _⟩ :=
      sftp_mkdir_creates_missing_ancestors
        ⟨some 493, some 420, some 1000, some 1000⟩ (fun _ => (7, 9))
        ⟨[[]], []⟩ ["a", "b"] 3 (by decide) (by decide) (by decide)
    exact ⟨chain, h1, h2⟩⟩

/-- Witness for sftp_listdir_partition on the spec's example listing: a
directory entry "sub" (mode 0o40755) and a regular-file entry "a"
(mode 0o100644) with distinct names. -/
theorem sftp_listdir_partition_witness :
    (([⟨"sub", some 16877⟩, ⟨"a", some 33188⟩] : List SFTPAttr).map
       SFTPAttr.filename).Nodup ∧
    (∀ n, n ∈ (listdirModel [⟨"sub", some 16877⟩, ⟨"a", some 33188⟩]).1 →
          n ∈ (listdirModel [⟨"sub", some 16877⟩, ⟨"a", some 33188⟩]).2 → False) :=
  ⟨by decide,
   (sftp_listdir_partition [⟨"sub", some 16877⟩, ⟨"a", some 33188⟩] (by decide)).2.2.2⟩
